import Mathlib

/-!
Verification of the `RunningJob` client handle
(`genie-client/src/main/python/pygenie/jobs/running.py`).

The Python class is shallowly embedded: the mutable object state becomes the
`RJ` structure, every accessor becomes a state-passing function, and the
remote Genie service (the "Adapter") becomes an oracle of responses indexed
by per-operation call counters kept inside the state.  Fallible operations
(assertion failures, Python `AttributeError` / `TypeError`, timestamp parse
failures) return `Option`, with `none` standing for a raised exception.
-/

namespace Genie

/-! ## Python values and dictionaries

Job info fields hold strings, `None`, integers or lists; the info cache is a
Python dict, modelled as an association list where the most recently
inserted binding wins. -/

/-- A Python value as stored in the `RunningJob._info` dict.  Strings,
`None` and integers cover every value the claims distinguish; aggregate
values (lists, nested dicts) behave like `int` for present/absent and
truthiness purposes and are not modelled separately. -/
inductive PyVal where
  | none
  | str (s : String)
  | int (n : Int)
deriving DecidableEq, Repr

/-- The `RunningJob._info` dict: field name to value. -/
abbrev Info := List (String × PyVal)

/-- Dict lookup: `d[k]` as an `Option` (`none` when the key is absent). -/
def pyGet : Info → String → Option PyVal
  | [], _ => none
  | (k, v) :: d, k' => if k' = k then some v else pyGet d k'

/-- Python `k in d`. -/
def pyContainsKey (d : Info) (k : String) : Bool :=
  (pyGet d k).isSome

/-- Python `d.get(k, default)`: the default is used only when the key is
absent; a key present with value `None` yields `None`. -/
def pyGetD (d : Info) (k : String) (default : PyVal) : PyVal :=
  match pyGet d k with
  | some v => v
  | none => default

/-- Python `d[k] = v` (overwriting insert; the new binding shadows any old
one under `pyGet`). -/
def pyInsert (d : Info) (k : String) (v : PyVal) : Info :=
  (k, v) :: d

/-- Python `d.update(data)`: merge `data` into `d`, remote values winning. -/
def pyUpdate (d : Info) (data : Info) : Info :=
  data.foldl (fun acc kv => pyInsert acc kv.1 kv.2) d

/-! ## Python string helpers

`str.upper()` / `str.lower()` restricted to ASCII letters, which covers all
status and command-name strings the module manipulates. -/

/-- ASCII uppercasing of one character, as Python `str.upper()` does for
ASCII input. -/
def pyUpperChar (c : Char) : Char :=
  if 97 ≤ c.toNat ∧ c.toNat ≤ 122 then Char.ofNat (c.toNat - 32) else c

/-- ASCII lowercasing of one character, as Python `str.lower()` does for
ASCII input. -/
def pyLowerChar (c : Char) : Char :=
  if 65 ≤ c.toNat ∧ c.toNat ≤ 90 then Char.ofNat (c.toNat + 32) else c

/-- Python `s.upper()` (ASCII). -/
def pyUpper (s : String) : String := String.mk (s.data.map pyUpperChar)

/-- Python `s.lower()` (ASCII). -/
def pyLower (s : String) : String := String.mk (s.data.map pyLowerChar)

theorem pyUpperChar_not_lower (c : Char) :
    ¬ (97 ≤ (pyUpperChar c).toNat ∧ (pyUpperChar c).toNat ≤ 122) := by
  unfold pyUpperChar
  by_cases h : 97 ≤ c.toNat ∧ c.toNat ≤ 122
  · rw [if_pos h]
    obtain ⟨h1, h2⟩ := h
    generalize hc : c.toNat = n at h1 h2
    interval_cases n <;> decide
  · rw [if_neg h]
    exact h

theorem pyUpperChar_idem (c : Char) : pyUpperChar (pyUpperChar c) = pyUpperChar c := by
  by_cases h : 97 ≤ c.toNat ∧ c.toNat ≤ 122
  · have h' := pyUpperChar_not_lower c
    unfold pyUpperChar at *
    rw [if_pos h] at h' ⊢
    rw [if_neg h']
  · unfold pyUpperChar
    rw [if_neg h, if_neg h]

theorem pyUpper_idem (s : String) : pyUpper (pyUpper s) = pyUpper s := by
  unfold pyUpper
  simp only [List.map_map]
  congr 1
  apply List.map_congr_left
  intro c _
  exact pyUpperChar_idem c

/-- No output of `pyUpper` contains a lowercase ASCII letter. -/
theorem pyUpper_no_lower (s : String) (c : Char) (hc : c ∈ (pyUpper s).data) :
    ¬ (97 ≤ c.toNat ∧ c.toNat ≤ 122) := by
  simp only [pyUpper] at hc
  obtain ⟨c', _, hc'⟩ := List.mem_map.mp hc
  rw [← hc']
  exact pyUpperChar_not_lower c'

theorem pyUpper_ne_init (s : String) : pyUpper s ≠ "init" := by
  intro h
  have : 'i' ∈ (pyUpper s).data := by rw [h]; decide
  exact pyUpper_no_lower s 'i' this (by decide)

theorem pyUpper_ne_running (s : String) : pyUpper s ≠ "running" := by
  intro h
  have : 'r' ∈ (pyUpper s).data := by rw [h]; decide
  exact pyUpper_no_lower s 'r' this (by decide)

/-! ## Status classification and info sections (`running.py` lines 24-38) -/

/-- The module-level `RUNNING_STATUSES` set: exactly these four strings. -/
def RUNNING_STATUSES : List String := ["INIT", "RUNNING", "init", "running"]

/-- The module-level `INFO_SECTIONS` set. -/
def INFO_SECTIONS : List String :=
  ["applications", "cluster", "command", "execution", "job", "request"]

/-! ## The Adapter oracle and the `RunningJob` state

`RunningJob` talks to a remote Genie service through an adapter
(`self._adapter`).  The adapter is modelled as an oracle: each kind of
remote call is a function from the index of the call (how many calls of
that kind were made before) to the response.  The indices live in the `RJ`
state, so the state also records exactly how many remote calls of each
kind have occurred — the claims about "exactly one call" / "zero calls"
are read off these counters.  `infoCalls` additionally logs which info
section each `get_info_for_rj` call requested. -/

/-- Oracle of adapter responses.  `get_info_for_rj n sec` is the field
mapping returned by the `n`-th info call (requesting section `sec`,
`Option.none` meaning no section filter); the other operations are indexed
the same way.  The job id argument of every Python call is dropped: one
`RJ` handle talks about one job. -/
structure Adapter where
  get_status : Nat → String
  get_info_for_rj : Nat → Option String → Info
  get_genie_log : Nat → String
  get_stderr : Nat → String

/-- The mutable state of one `RunningJob` object, plus the per-operation
remote-call instrumentation. -/
structure RJ where
  _status : Option String
  _info : Info
  _cached_genie_log : Option String
  _cached_stderr : Option String
  statusCalls : Nat
  infoCalls : List (Option String)
  genieLogCalls : Nat
  stderrCalls : Nat
deriving DecidableEq, Repr

/-- `RunningJob.__init__` with a pre-seeded `info` mapping (lines 78-93):
`self._status = self._info.get('status') or None`, so a missing, `None` or
empty-string seeded status leaves `_status = None`.  Statuses are strings;
a (never occurring in practice) non-string seeded status is not modelled
and also maps to `None`. -/
def mkRunningJob (info : Info) : RJ :=
  { _status :=
      match pyGet info "status" with
      | some (PyVal.str s) => if s = "" then Option.none else some s
      | _ => Option.none
    _info := info
    _cached_genie_log := Option.none
    _cached_stderr := Option.none
    statusCalls := 0
    infoCalls := []
    genieLogCalls := 0
    stderrCalls := 0 }

/-- One `self._adapter.get_status(self._job_id)` round trip. -/
def getStatusCall (a : Adapter) (rj : RJ) : String × RJ :=
  (a.get_status rj.statusCalls, { rj with statusCalls := rj.statusCalls + 1 })

/-- One `self._adapter.get_genie_log(self._job_id)` round trip. -/
def getGenieLogCall (a : Adapter) (rj : RJ) : String × RJ :=
  (a.get_genie_log rj.genieLogCalls, { rj with genieLogCalls := rj.genieLogCalls + 1 })

/-- One `self._adapter.get_stderr(self._job_id)` round trip. -/
def getStderrCall (a : Adapter) (rj : RJ) : String × RJ :=
  (a.get_stderr rj.stderrCalls, { rj with stderrCalls := rj.stderrCalls + 1 })

/-- The `assert` guard of `_update_info` (lines 117-120): the section must
be `None` or a member of `INFO_SECTIONS`. -/
def validSection : Option String → Bool
  | Option.none => true
  | some s => decide (s ∈ INFO_SECTIONS)

/-- `RunningJob._update_info` (lines 117-126): assert the section is valid,
fetch the section's field mapping from the adapter and merge it into
`_info` (remote wins).  `none` is the assertion failure. -/
def updateInfo (a : Adapter) (sec : Option String) (rj : RJ) : Option RJ :=
  if validSection sec then
    some { rj with
            _info := pyUpdate rj._info (a.get_info_for_rj rj.infoCalls.length sec)
            infoCalls := rj.infoCalls ++ [sec] }
  else Option.none

/-- The re-fetch guard of the `status` property (line 488):
`(self._status is None) or (self._status in RUNNING_STATUSES)`. -/
def statusNeedsFetch : Option String → Bool
  | Option.none => true
  | some s => decide (s ∈ RUNNING_STATUSES)

/-- The body of the fetch branch of `status` (lines 489-490): uppercase the
adapter response, store it in `_status` and in `_info['status']`. -/
def fetchStatus (a : Adapter) (rj : RJ) : RJ :=
  let (resp, rj) := getStatusCall a rj
  let s := pyUpper resp
  { rj with _status := some s, _info := pyInsert rj._info "status" (PyVal.str s) }

/-- The return expression of `status` (line 492):
`self._status.upper() if self._status else None` — an empty-string
`_status` is falsy and yields `None`. -/
def statusReturn : Option String → Option String
  | Option.none => Option.none
  | some s => if s = "" then Option.none else some (pyUpper s)

/-- The `status` property (lines 475-492). -/
def statusProp (a : Adapter) (rj : RJ) : Option String × RJ :=
  let rj := if statusNeedsFetch rj._status then fetchStatus a rj else rj
  (statusReturn rj._status, rj)

/-- `RunningJob.is_done` (lines 289-302):
`self.status not in RUNNING_STATUSES` (a `None` status is not a member,
hence done). -/
def isDone (a : Adapter) (rj : RJ) : Bool × RJ :=
  let (st, rj) := statusProp a rj
  (match st with
   | some s => ! decide (s ∈ RUNNING_STATUSES)
   | Option.none => true, rj)

/-! ## The `get_from_info` caching decorator (lines 41-72) -/

/-- The wrapper produced by `get_from_info(info_key, info_section,
update_if_running)`: if the key is absent from `_info`, refresh the
section; otherwise, when `update_if_running`, compute
`(self.status or 'INIT').upper()` (which can itself issue a status call)
and refresh the section if that status is running; finally return
`self.info.get(info_key)`.  `none` is a raised exception (the
`_update_info` assertion). -/
def getFromInfo (info_key info_section : String) (update_if_running : Bool)
    (a : Adapter) (rj : RJ) : Option (PyVal × RJ) := do
  let rj ←
    if pyContainsKey rj._info info_key = false then
      updateInfo a (some info_section) rj
    else if update_if_running then
      let (st, rj) := statusProp a rj
      let status := pyUpper (match st with | some s => s | Option.none => "INIT")
      if decide (status ∈ RUNNING_STATUSES) then updateInfo a (some info_section) rj
      else some rj
    else some rj
  some (pyGetD rj._info info_key PyVal.none, rj)

/-- The `(info_key, info_section)` pairs of every property decorated with
`get_from_info` and not marked `update_if_running` (lines 133, 162, 176,
209, 320, 334, 368, 382, 396, 429, 443, 560, 601): cluster name, command
args, description, file dependencies, job id, job name, the two links,
kill URI, output URI, request data, tags and username. -/
def nonVolatileFields : List (String × String) :=
  [("cluster_name", "cluster"), ("command_args", "job"), ("description", "job"),
   ("file_dependencies", "request"), ("id", "job"), ("name", "job"),
   ("job_link", "job"), ("json_link", "job"), ("kill_uri", "job"),
   ("output_uri", "job"), ("request_data", "request"), ("tags", "job"),
   ("user", "job")]

/-- `RunningJob.status_msg` (lines 545-557): the single accessor decorated
with `update_if_running=True`. -/
def status_msg (a : Adapter) (rj : RJ) : Option (PyVal × RJ) :=
  getFromInfo "status_msg" "job" true a rj

/-- `RunningJob.cluster_name` (lines 132-144), one representative of the
non-volatile decorated accessors. -/
def cluster_name (a : Adapter) (rj : RJ) : Option (PyVal × RJ) :=
  getFromInfo "cluster_name" "cluster" false a rj

/-! ## Log accessors (lines 245-267, 494-516, 526-543) -/

/-- The result of a log accessor: full text, or the line sequence of the
iterator form. -/
inductive LogResult where
  | text (s : String)
  | lines (ls : List String)
deriving DecidableEq, Repr

/-- Python falsiness of an optional cached blob: `None` and `''` are
falsy, so `if not self._cached_genie_log` re-enters the fetch branch on
both. -/
def optFalsy : Option String → Bool
  | Option.none => true
  | some s => decide (s = "")

/-- `RunningJob.genie_log` (lines 245-267): when the job is done, memoize
the full-text log in `_cached_genie_log` (re-fetching while the cached
blob is falsy) and serve from the cache; otherwise delegate every call to
the adapter. -/
def genie_log (a : Adapter) (iterator : Bool) (rj : RJ) : LogResult × RJ :=
  let (done, rj) := isDone a rj
  if done then
    let rj :=
      if optFalsy rj._cached_genie_log then
        let (content, rj) := getGenieLogCall a rj
        { rj with _cached_genie_log := some content }
      else rj
    let c := rj._cached_genie_log.getD ""
    ((if iterator then LogResult.lines (c.splitOn "\n") else LogResult.text c), rj)
  else
    let (content, rj) := getGenieLogCall a rj
    ((if iterator then LogResult.lines (content.splitOn "\n") else LogResult.text content), rj)

/-- `RunningJob.stderr` (lines 494-516): same shape as `genie_log`, with
its own cache slot. -/
def stderr (a : Adapter) (iterator : Bool) (rj : RJ) : LogResult × RJ :=
  let (done, rj) := isDone a rj
  if done then
    let rj :=
      if optFalsy rj._cached_stderr then
        let (content, rj) := getStderrCall a rj
        { rj with _cached_stderr := some content }
      else rj
    let c := rj._cached_stderr.getD ""
    ((if iterator then LogResult.lines (c.splitOn "\n") else LogResult.text c), rj)
  else
    let (content, rj) := getStderrCall a rj
    ((if iterator then LogResult.lines (content.splitOn "\n") else LogResult.text content), rj)

/-! ## The blocking `wait` poll (lines 614-648)

The sleeps and the progress-dot writes to the sys stream do not affect any
state the claims mention and are elided; the loop itself is modelled with
explicit fuel since it need not terminate.  Iteration `i` of the Python
loop issues the `i`-th fresh `get_status` call directly against the
adapter, never consulting the handle's cache. -/

/-- The stop-condition set built at lines 636-637:
`{s for s in RUNNING_STATUSES if not until_running or s.upper() != 'RUNNING'}`. -/
def waitStatuses (until_running : Bool) : List String :=
  RUNNING_STATUSES.filter (fun s => !until_running || decide (pyUpper s ≠ "RUNNING"))

/-- The polling loop (line 639): keep polling while the uppercased fresh
status is in the stop set; returns the index of the exiting poll (so
`some i` means `i + 1` status calls were made), `none` when the fuel ran
out before the job left the stop set. -/
def waitLoop (g : Nat → String) (statuses : List String) : Nat → Nat → Option Nat
  | 0, _ => Option.none
  | fuel + 1, i =>
    if decide (pyUpper (g i) ∈ statuses) then waitLoop g statuses fuel (i + 1)
    else some i

/-- `RunningJob.wait` (lines 614-648): run the polling loop against the
adapter and return `self` unchanged (paired with the index of the exiting
poll). -/
def wait (a : Adapter) (rj : RJ) (until_running : Bool) (fuel : Nat) :
    Option (RJ × Nat) :=
  (waitLoop a.get_status (waitStatuses until_running) fuel 0).map (fun i => (rj, i))

/-! ## Timestamp conversion (lines 108-115) -/

/-- Parse exactly `n` decimal digits off the front of a character list. -/
def parseNatAux : Nat → Nat → List Char → Option (Nat × List Char)
  | 0, acc, cs => some (acc, cs)
  | _ + 1, _, [] => Option.none
  | n + 1, acc, c :: cs =>
    if c.isDigit then parseNatAux n (acc * 10 + (c.toNat - 48)) cs else Option.none

/-- Consume one expected literal character. -/
def parseLit (ch : Char) : List Char → Option (List Char)
  | [] => Option.none
  | c :: cs => if c = ch then some cs else Option.none

/-- Gregorian leap year. -/
def isLeap (y : Int) : Bool :=
  y % 4 = 0 && (y % 100 != 0 || y % 400 = 0)

/-- Days in a Gregorian month. -/
def daysInMonth (y : Int) (m : Nat) : Nat :=
  if m = 2 then (if isLeap y then 29 else 28)
  else if m = 4 ∨ m = 6 ∨ m = 9 ∨ m = 11 then 30
  else 31

/-- Days from 1970-01-01 to the given civil date (valid for year ≥ 1). -/
def daysFromCivil (y : Int) (m d : Nat) : Int :=
  let y : Int := if m ≤ 2 then y - 1 else y
  let era : Int := y / 400
  let yoe : Int := y - era * 400
  let mp : Int := (Int.ofNat m + 9) % 12
  let doy : Int := (153 * mp + 2) / 5 + Int.ofNat d - 1
  let doe : Int := yoe * 365 + yoe / 4 - yoe / 100 + doy
  era * 146097 + doe - 719468

/-- Modelled from the spec: `dttm_to_epoch` from `pygenie.utils`, which is
not under `src/` (only its import at `running.py` line 19 is).  Per the
spec it parses an ISO-8601 UTC timestamp string — `%Y-%m-%dT%H:%M:%SZ`, or
`%Y-%m-%dT%H:%M:%S.%fZ` when `msFormat` is set (`%f` taking one to six
fraction digits) — and yields whole seconds since the UTC epoch, the
sub-second fraction being discarded; `none` is a raised parse failure. -/
def dttm_to_epoch (s : String) (msFormat : Bool) : Option Int := do
  let cs := s.data
  let (y, cs) ← parseNatAux 4 0 cs
  let cs ← parseLit '-' cs
  let (mo, cs) ← parseNatAux 2 0 cs
  let cs ← parseLit '-' cs
  let (d, cs) ← parseNatAux 2 0 cs
  let cs ← parseLit 'T' cs
  let (h, cs) ← parseNatAux 2 0 cs
  let cs ← parseLit ':' cs
  let (mi, cs) ← parseNatAux 2 0 cs
  let cs ← parseLit ':' cs
  let (se, cs) ← parseNatAux 2 0 cs
  let cs ←
    if msFormat then do
      let cs ← parseLit '.' cs
      let fracLen := (cs.takeWhile Char.isDigit).length
      if 1 ≤ fracLen ∧ fracLen ≤ 6 then some (cs.dropWhile Char.isDigit)
      else Option.none
    else some cs
  let cs ← parseLit 'Z' cs
  if cs = [] ∧ 1 ≤ y ∧ 1 ≤ mo ∧ mo ≤ 12 ∧ 1 ≤ d ∧ d ≤ daysInMonth (Int.ofNat y) mo
       ∧ h ≤ 23 ∧ mi ≤ 59 ∧ se ≤ 59 then
    some (daysFromCivil (Int.ofNat y) mo d * 86400
            + Int.ofNat h * 3600 + Int.ofNat mi * 60 + Int.ofNat se)
  else Option.none

/-- The `re.search(r'\.\d\d\dZ', dttm)` test at line 111: does the string
contain, anywhere, a dot followed by exactly three digits and a `Z`. -/
def hasMsPatternL : List Char → Bool
  | [] => false
  | '.' :: d1 :: d2 :: d3 :: 'Z' :: rest =>
    (d1.isDigit && d2.isDigit && d3.isDigit)
      || hasMsPatternL (d1 :: d2 :: d3 :: 'Z' :: rest)
  | _ :: rest => hasMsPatternL rest

/-- String form of the millisecond-pattern test. -/
def hasMsPattern (s : String) : Bool := hasMsPatternL s.data

/-- `RunningJob.__convert_dttm_to_epoch` (lines 108-115): read the
timestamp out of `_info` (defaulting to `'1970-01-01T00:00:00Z'` when the
key is absent), pick the format by the millisecond-pattern search, parse,
and multiply the seconds by 1000.  A `None` value skips parsing and yields
0; a non-string value makes `re.search` raise (`none`). -/
def convertDttmToEpoch (info : Info) (info_key : String) : Option Int :=
  let dttm :=
    match pyGet info info_key with
    | some v => v
    | Option.none => PyVal.str "1970-01-01T00:00:00Z"
  match dttm with
  | PyVal.none => some 0
  | PyVal.str s =>
    if hasMsPattern s then (dttm_to_epoch s true).map (· * 1000)
    else (dttm_to_epoch s false).map (· * 1000)
  | _ => Option.none

/-! ## Time accessors and duration (lines 189-206, 222-243, 456-473) -/

/-- `RunningJob.start_time` (lines 456-473): refresh the job section when
`started` is absent or `None`, then convert. -/
def start_time (a : Adapter) (rj : RJ) : Option (Int × RJ) := do
  let rj ←
    if pyContainsKey rj._info "started" = false
        ∨ pyGet rj._info "started" = some PyVal.none then
      updateInfo a (some "job") rj
    else some rj
  let e ← convertDttmToEpoch rj._info "started"
  some (e, rj)

/-- `RunningJob.finish_time` (lines 222-243): read `self.status` (which
may itself fetch), refresh the job section when `finished` is absent or
the status is running or `None`, then convert. -/
def finish_time (a : Adapter) (rj : RJ) : Option (Int × RJ) := do
  let (st, rj) := statusProp a rj
  let needsRefresh : Bool :=
    !pyContainsKey rj._info "finished"
      || (match st with
          | some s => decide (s ∈ RUNNING_STATUSES)
          | Option.none => true)
  let rj ← if needsRefresh then updateInfo a (some "job") rj else some rj
  let e ← convertDttmToEpoch rj._info "finished"
  some (e, rj)

/-- `RunningJob.duration` (lines 189-206):
`return self.finish_time - self.start_time`, `finish_time` evaluated
first. -/
def duration (a : Adapter) (rj : RJ) : Option (Int × RJ) := do
  let (f, rj) ← finish_time a rj
  let (s, rj) ← start_time a rj
  some (f - s, rj)

/-! ## `job_type` (lines 347-365) -/

/-- Python truthiness of a `PyVal`. -/
def pyTruthy : PyVal → Bool
  | PyVal.none => false
  | PyVal.str s => decide (s ≠ "")
  | PyVal.int n => decide (n ≠ 0)

/-- Substring search on character lists (Python `needle in hay`). -/
def containsSub (needle : List Char) : List Char → Bool
  | [] => needle.isEmpty
  | c :: cs => needle.isPrefixOf (c :: cs) || containsSub needle cs

/-- Python `needle in hay` for strings. -/
def strContains (hay needle : String) : Bool := containsSub needle.data hay.data

/-- The command-section refresh at the head of `job_type`
(lines 360-361). -/
def jobTypeStep1 (a : Adapter) (rj : RJ) : Option RJ :=
  if pyContainsKey rj._info "command_name" = false then updateInfo a (some "command") rj
  else some rj

/-- `RunningJob.job_type` (lines 347-365): refresh the command section if
needed; if `'hive' in (self.info.get('command_name', '') or '').lower()`
report `'HIVE'`, else report `self.info.get('command_name').upper()`.
`none` is a raised exception — in particular the `AttributeError` from
calling `.lower()`/`.upper()` on a non-string or `None` value. -/
def job_type (a : Adapter) (rj : RJ) : Option (String × RJ) := do
  let rj ← jobTypeStep1 a rj
  let v :=
    match pyGet rj._info "command_name" with
    | some v => v
    | Option.none => PyVal.str ""
  let v := if pyTruthy v then v else PyVal.str ""
  let s ← match v with | PyVal.str s => some s | _ => Option.none
  if strContains (pyLower s) "hive" then
    some ("HIVE", rj)
  else
    match pyGet rj._info "command_name" with
    | some (PyVal.str s) => some (pyUpper s, rj)
    | _ => Option.none

/-! ## Helper lemmas about the dict model -/

theorem pyContainsKey_pyInsert (d : Info) (k' k : String) (v : PyVal) :
    pyContainsKey (pyInsert d k' v) k = (decide (k = k') || pyContainsKey d k) := by
  by_cases h : k = k' <;> simp [pyContainsKey, pyInsert, pyGet, h]

theorem pyContainsKey_pyUpdate (data : Info) (d : Info) (k : String) :
    pyContainsKey (pyUpdate d data) k
      = (data.any (fun p => decide (p.1 = k)) || pyContainsKey d k) := by
  induction data generalizing d with
  | nil => simp [pyUpdate]
  | cons p rest ih =>
    have hstep : pyUpdate d (p :: rest) = pyUpdate (pyInsert d p.1 p.2) rest := rfl
    rw [hstep, ih, List.any_cons, pyContainsKey_pyInsert]
    by_cases h : p.1 = k
    · simp [h]
    · have h' : ¬ k = p.1 := fun hk => h hk.symm
      simp [h, h']

theorem pyUpper_mem_running (s : String) (h : s ∈ RUNNING_STATUSES) :
    pyUpper s ∈ RUNNING_STATUSES := by
  fin_cases h <;> decide

/-- Concrete adapter whose status answer, info answer and log answers are
constant; used to instantiate theorems with hypotheses. -/
def constAdapter (st : String) (resp : Info) : Adapter :=
  { get_status := fun _ => st
    get_info_for_rj := fun _ _ => resp
    get_genie_log := fun _ => "LOG"
    get_stderr := fun _ => "ERR" }

/-- An out-of-band mutation of one cache entry: `rj.info[k] = v` performed
by external code, touching neither `_status` nor any call counter. -/
def setCache (rj : RJ) (k : String) (v : PyVal) : RJ :=
  { rj with _info := pyInsert rj._info k v }

@[simp]
theorem setCache_status (rj : RJ) (k : String) (v : PyVal) :
    (setCache rj k v)._status = rj._status := rfl

/-- When the stored `_status` is a nonempty uppercase-fixed non-running
string, the `status` property is a pure read: no adapter call, no state
change. -/
theorem statusProp_no_fetch (a : Adapter) (rj : RJ) (S : String)
    (h : rj._status = some S) (hterm : S ∉ RUNNING_STATUSES)
    (hne : S ≠ "") (hupper : pyUpper S = S) :
    statusProp a rj = (some S, rj) := by
  have hnf : statusNeedsFetch (some S) = false := by
    simp [statusNeedsFetch, hterm]
  simp [statusProp, h, hnf, statusReturn, hne, hupper]

/-! ## Claim C1 -/

/-- C1: once the `status` property has obtained and stored a non-running
status in the dedicated `_status` field, subsequent calls perform no
further adapter status calls and return that stored value, even if
`_info['status']` is afterwards mutated out of band to any value
(running-class included): the `_status` field, not the cache entry, gates
the re-fetch.  Starting from any state whose `_status` makes the property
fetch, if the uppercased adapter response `S` is outside
`RUNNING_STATUSES` (and nonempty, so Python does not render it as `None`),
the call returns `S` and stores it; and for every out-of-band overwrite of
`_info['status']` and every adapter, a subsequent call returns
`(some S, mutated state)` with the mutated state unchanged — zero further
remote calls of any kind. -/
theorem C1_status_field_gates_refetch
    (a : Adapter) (rj : RJ)
    (hfetch : statusNeedsFetch rj._status = true)
    (S : String) (hS : S = pyUpper (a.get_status rj.statusCalls))
    (hterm : S ∉ RUNNING_STATUSES) (hne : S ≠ "") :
    (statusProp a rj).1 = some S
    ∧ (statusProp a rj).2._status = some S
    ∧ ∀ (v : PyVal) (a' : Adapter),
        statusProp a' (setCache (statusProp a rj).2 "status" v)
          = (some S, setCache (statusProp a rj).2 "status" v) := by
  have hupper : pyUpper S = S := by rw [hS]; exact pyUpper_idem _
  have hstate : (statusProp a rj).2 = fetchStatus a rj := by
    simp [statusProp, hfetch]
  have hst : (fetchStatus a rj)._status = some S := by
    simp [fetchStatus, getStatusCall, hS]
  have hsr : statusReturn (some S) = some S := by
    simp [statusReturn, hne, hupper]
  refine ⟨?_, hstate ▸ hst, ?_⟩
  · have h1 : (statusProp a rj).1 = statusReturn (statusProp a rj).2._status := by
      simp [statusProp]
    rw [h1, hstate, hst, hsr]
  · intro v a'
    exact statusProp_no_fetch a' _ S (by rw [setCache_status, hstate, hst]) hterm hne hupper

/-- Closed instance of C1: the adapter reports `succeeded`; the first call
stores `SUCCEEDED`; after `_info['status']` is mutated out of band to the
running-class value `RUNNING`, a second call against an adapter that would
report `running` still answers `SUCCEEDED` and leaves the state (call
counters included) untouched. -/
theorem C1_witness :
    (statusProp (constAdapter "succeeded" []) (mkRunningJob [])).1 = some "SUCCEEDED"
    ∧ statusProp (constAdapter "running" [])
        (setCache (statusProp (constAdapter "succeeded" []) (mkRunningJob [])).2
          "status" (PyVal.str "RUNNING"))
      = (some "SUCCEEDED",
         setCache (statusProp (constAdapter "succeeded" []) (mkRunningJob [])).2
           "status" (PyVal.str "RUNNING")) := by
  have h := C1_status_field_gates_refetch (constAdapter "succeeded" []) (mkRunningJob [])
    (by decide) "SUCCEEDED" (by decide) (by decide) (by decide)
  exact ⟨h.1, h.2.2 (PyVal.str "RUNNING") (constAdapter "running" [])⟩

/-! ## Claim C10 -/

/-- C10: when the adapter's status fetch returns the empty string, the
`status` property stores `""` in the dedicated `_status` field and
`PyVal.str ""` in `_info['status']`, makes exactly one status call, and
returns `None` (Python renders the falsy `""` as `None`); and because
`"" ∉ RUNNING_STATUSES`, every subsequent call performs no adapter call,
changes nothing, and returns `None` again. -/
theorem C10_empty_status_sticky
    (a : Adapter) (rj : RJ)
    (hfetch : statusNeedsFetch rj._status = true)
    (hresp : a.get_status rj.statusCalls = "") :
    (statusProp a rj).1 = Option.none
    ∧ (statusProp a rj).2._status = some ""
    ∧ pyGet (statusProp a rj).2._info "status" = some (PyVal.str "")
    ∧ (statusProp a rj).2.statusCalls = rj.statusCalls + 1
    ∧ ∀ a' : Adapter,
        statusProp a' (statusProp a rj).2 = (Option.none, (statusProp a rj).2) := by
  have hstate : (statusProp a rj).2 = fetchStatus a rj := by
    simp [statusProp, hfetch]
  have h0 : pyUpper "" = "" := rfl
  have hst : (fetchStatus a rj)._status = some "" := by
    simp [fetchStatus, getStatusCall, hresp, h0]
  have hsr : statusReturn (some "") = Option.none := rfl
  have hnf : statusNeedsFetch (some "") = false := by decide
  refine ⟨?_, hstate ▸ hst, ?_, ?_, ?_⟩
  · have h1 : (statusProp a rj).1 = statusReturn (statusProp a rj).2._status := by
      simp [statusProp]
    rw [h1, hstate, hst, hsr]
  · rw [hstate]
    simp [fetchStatus, getStatusCall, hresp, h0, pyInsert, pyGet]
  · rw [hstate]
    simp [fetchStatus, getStatusCall]
  · intro a'
    rw [hstate]
    simp [statusProp, hst, hnf, hsr]

/-- Closed instance of C10: against an adapter answering `""`, a fresh
handle's first `status` call returns `None` storing `""`, and a second
call (against an adapter that would answer `RUNNING`) returns `None`
without touching the state. -/
theorem C10_witness :
    (statusProp (constAdapter "" []) (mkRunningJob [])).1 = Option.none
    ∧ pyGet (statusProp (constAdapter "" []) (mkRunningJob [])).2._info "status"
        = some (PyVal.str "")
    ∧ statusProp (constAdapter "RUNNING" [])
        (statusProp (constAdapter "" []) (mkRunningJob [])).2
      = (Option.none, (statusProp (constAdapter "" []) (mkRunningJob [])).2) := by
  have h := C10_empty_status_sticky (constAdapter "" []) (mkRunningJob [])
    (by decide) (by decide)
  exact ⟨h.1, h.2.2.1, h.2.2.2.2 (constAdapter "RUNNING" [])⟩

/-! ## Claim C3 -/

/-- Shape of a `status` result: whatever the property returns is a
fixpoint of uppercasing. -/
theorem statusReturn_upper (st : Option String) (s : String)
    (h : statusReturn st = some s) : pyUpper s = s := by
  cases st with
  | none => simp [statusReturn] at h
  | some t =>
    by_cases ht : t = ""
    · simp [statusReturn, ht] at h
    · simp [statusReturn, ht] at h
      rw [← h]
      exact pyUpper_idem t

theorem statusProp_result_upper (a : Adapter) (rj : RJ) (s : String)
    (h : (statusProp a rj).1 = some s) : pyUpper s = s := by
  exact statusReturn_upper _ s h

/-- C3 counterexample: the claim says any letter-casing of INIT (such as
`"Init"`) is treated as running by the status accessor's re-fetch guard.
On the code, a handle pre-seeded with status `"Init"` — a letter-casing of
INIT, as the first conjunct certifies — fails the guard
(`'Init' not in RUNNING_STATUSES`), so the accessor performs zero adapter
status calls instead of re-fetching. -/
theorem C3_counterexample :
    pyUpper "Init" = "INIT"
    ∧ statusNeedsFetch (mkRunningJob [("status", PyVal.str "Init")])._status = false
    ∧ (statusProp (constAdapter "SUCCEEDED" [])
        (mkRunningJob [("status", PyVal.str "Init")])).2.statusCalls = 0 := by
  decide

/-- C3 (amended): classification as running-class is exact membership in
the four-string set `{INIT, RUNNING, init, running}` — fully-uppercase and
fully-lowercase forms of INIT and RUNNING are running, but any other
casing (`"Init"`, `"Running"`, …) is not, so the status accessor's
re-fetch guard treats such mixed casings as terminal.  Because the status
accessor only ever returns uppercased strings, `is_done` is nevertheless
true iff the returned status is not case-insensitively INIT or RUNNING. -/
theorem C3_running_classification_amended :
    (∀ s : String, s ∈ RUNNING_STATUSES
        ↔ (s = "INIT" ∨ s = "RUNNING" ∨ s = "init" ∨ s = "running"))
    ∧ (∀ st : Option String, statusNeedsFetch st = true
        ↔ (st = Option.none ∨ ∃ s, st = some s ∧ s ∈ RUNNING_STATUSES))
    ∧ (∀ (a : Adapter) (rj : RJ) (s : String), (statusProp a rj).1 = some s →
        ((isDone a rj).1 = true ↔ ¬ (pyUpper s = "INIT" ∨ pyUpper s = "RUNNING"))) := by
  refine ⟨?_, ?_, ?_⟩
  · intro s
    simp [RUNNING_STATUSES]
  · intro st
    cases st with
    | none => simp [statusNeedsFetch]
    | some s => simp [statusNeedsFetch]
  · intro a rj s h
    have hfix : pyUpper s = s := statusProp_result_upper a rj s h
    have hd : (isDone a rj).1 = ! decide (s ∈ RUNNING_STATUSES) := by
      rcases hsp : statusProp a rj with ⟨st, rj'⟩
      rw [hsp] at h
      simp only at h
      simp [isDone, hsp, h]
    rw [hd]
    constructor
    · intro hb hcase
      rw [hfix] at hcase
      have hmem : s ∈ RUNNING_STATUSES := by
        rcases hcase with h1 | h1 <;> rw [h1] <;> decide
      simp [hmem] at hb
    · intro hn
      have hmem : s ∉ RUNNING_STATUSES := by
        intro hmem
        apply hn
        rw [hfix]
        fin_cases hmem
        · left; rfl
        · right; rfl
        · exact absurd hfix (by decide)
        · exact absurd hfix (by decide)
      simp [hmem]

/-- Closed instance of the amended C3: `"init"` is in the running set,
the guard accepts a stored running-class status, and for a handle whose
status comes back `SUCCEEDED`, `is_done` is true since `SUCCEEDED` is not
case-insensitively INIT or RUNNING. -/
theorem C3_witness :
    ("init" ∈ RUNNING_STATUSES
        ↔ ("init" = "INIT" ∨ "init" = "RUNNING" ∨ "init" = "init" ∨ "init" = "running"))
    ∧ (statusNeedsFetch (some "RUNNING") = true
        ↔ ((some "RUNNING" : Option String) = Option.none
            ∨ ∃ s, (some "RUNNING" : Option String) = some s ∧ s ∈ RUNNING_STATUSES))
    ∧ ((isDone (constAdapter "succeeded" []) (mkRunningJob [])).1 = true
        ↔ ¬ (pyUpper "SUCCEEDED" = "INIT" ∨ pyUpper "SUCCEEDED" = "RUNNING")) := by
  refine ⟨C3_running_classification_amended.1 "init",
          C3_running_classification_amended.2.1 (some "RUNNING"),
          C3_running_classification_amended.2.2 (constAdapter "succeeded" [])
            (mkRunningJob []) "SUCCEEDED" ?_⟩
  decide

/-! ## Claim C4 -/

/-- C4 counterexample: the claim says a second access with no intervening
state change triggers zero additional adapter calls.  Against an adapter
whose `cluster` section response does not contain `cluster_name`, the
first `cluster_name` access issues one section call (leaving the key
absent), and the second access issues a second section call: two entries
in the info-call log instead of one. -/
theorem C4_counterexample :
    getFromInfo "cluster_name" "cluster" false (constAdapter "" []) (mkRunningJob [])
      = some (PyVal.none, { mkRunningJob [] with infoCalls := [some "cluster"] })
    ∧ (getFromInfo "cluster_name" "cluster" false (constAdapter "" [])
        (mkRunningJob [])).bind
        (fun p => getFromInfo "cluster_name" "cluster" false (constAdapter "" []) p.2)
      = some (PyVal.none,
              { mkRunningJob [] with infoCalls := [some "cluster", some "cluster"] }) := by
  decide

/-- C4 (amended): for every field with a dedicated non-volatile cached
accessor, an access with the field present in the cache performs zero
adapter calls and returns the cached value; an access with the field
absent performs exactly one info-section call (for that field's section)
and returns the value now in the cache; and — provided the adapter's
section response actually contains the field — a second access with no
intervening state change performs zero additional adapter calls and
returns the same cached value.  (If the response omits the field, the key
stays absent and every access re-triggers a section call, as the
counterexample shows.) -/
theorem C4_cached_accessor_amended
    (key sec : String) (hf : (key, sec) ∈ nonVolatileFields)
    (a : Adapter) (rj : RJ) :
    (pyContainsKey rj._info key = true →
      getFromInfo key sec false a rj = some (pyGetD rj._info key PyVal.none, rj))
    ∧ (pyContainsKey rj._info key = false →
        getFromInfo key sec false a rj
          = some (pyGetD (pyUpdate rj._info
                    (a.get_info_for_rj rj.infoCalls.length (some sec))) key PyVal.none,
                  { rj with
                      _info := pyUpdate rj._info
                        (a.get_info_for_rj rj.infoCalls.length (some sec))
                      infoCalls := rj.infoCalls ++ [some sec] })
        ∧ ((a.get_info_for_rj rj.infoCalls.length (some sec)).any
              (fun p => decide (p.1 = key)) = true →
            getFromInfo key sec false a
                { rj with
                    _info := pyUpdate rj._info
                      (a.get_info_for_rj rj.infoCalls.length (some sec))
                    infoCalls := rj.infoCalls ++ [some sec] }
              = some (pyGetD (pyUpdate rj._info
                        (a.get_info_for_rj rj.infoCalls.length (some sec))) key PyVal.none,
                      { rj with
                          _info := pyUpdate rj._info
                            (a.get_info_for_rj rj.infoCalls.length (some sec))
                          infoCalls := rj.infoCalls ++ [some sec] }))) := by
  have hsec : sec ∈ INFO_SECTIONS := by fin_cases hf <;> decide
  have hvalid : validSection (some sec) = true := by
    simp [validSection, hsec]
  refine ⟨?_, ?_⟩
  · intro hkey
    simp [getFromInfo, hkey]
  · intro habs
    refine ⟨?_, ?_⟩
    · simp [getFromInfo, habs, updateInfo, hvalid]
    · intro hresp
      have hkey1 : pyContainsKey
          (pyUpdate rj._info (a.get_info_for_rj rj.infoCalls.length (some sec))) key
          = true := by
        rw [pyContainsKey_pyUpdate, hresp, Bool.true_or]
      simp [getFromInfo, hkey1]

/-- Closed instance of C4 (amended): with an adapter whose `cluster`
response carries `cluster_name = "prod"`, the first access on a fresh
handle performs exactly one `cluster` section call and returns `"prod"`;
the second access returns the same value with no state change. -/
theorem C4_witness :
    getFromInfo "cluster_name" "cluster" false
        (constAdapter "" [("cluster_name", PyVal.str "prod")]) (mkRunningJob [])
      = some (PyVal.str "prod",
              { mkRunningJob [] with
                  _info := [("cluster_name", PyVal.str "prod")]
                  infoCalls := [some "cluster"] })
    ∧ getFromInfo "cluster_name" "cluster" false
        (constAdapter "" [("cluster_name", PyVal.str "prod")])
        { mkRunningJob [] with
            _info := [("cluster_name", PyVal.str "prod")]
            infoCalls := [some "cluster"] }
      = some (PyVal.str "prod",
              { mkRunningJob [] with
                  _info := [("cluster_name", PyVal.str "prod")]
                  infoCalls := [some "cluster"] }) := by
  have h := C4_cached_accessor_amended "cluster_name" "cluster" (by decide)
    (constAdapter "" [("cluster_name", PyVal.str "prod")]) (mkRunningJob [])
  exact ⟨(h.2 (by decide)).1, (h.2 (by decide)).2 (by decide)⟩

/-! ## Claim C5 -/

/-- C5: the status-message accessor is volatile.  With `status_msg`
already cached: whenever the `status` read performed inside the wrapper
yields a running-class status, the accessor refreshes the `job` section
anyway (one more info call) and returns the freshly merged value; and
whenever the stored status is terminal (nonempty, uppercase-fixed,
non-running), the accessor performs no adapter call at all and returns the
cached value with the state untouched. -/
theorem C5_status_msg_volatile
    (a : Adapter) (rj : RJ)
    (hkey : pyContainsKey rj._info "status_msg" = true) :
    (∀ (s' : String) (rj₁ : RJ),
        statusProp a rj = (some s', rj₁) → s' ∈ RUNNING_STATUSES →
        status_msg a rj
          = some (pyGetD (pyUpdate rj₁._info
                    (a.get_info_for_rj rj₁.infoCalls.length (some "job"))) "status_msg" PyVal.none,
                  { rj₁ with
                      _info := pyUpdate rj₁._info
                        (a.get_info_for_rj rj₁.infoCalls.length (some "job"))
                      infoCalls := rj₁.infoCalls ++ [some "job"] }))
    ∧ (∀ S : String,
        rj._status = some S → S ∉ RUNNING_STATUSES → S ≠ "" → pyUpper S = S →
        status_msg a rj = some (pyGetD rj._info "status_msg" PyVal.none, rj)) := by
  refine ⟨?_, ?_⟩
  · intro s' rj₁ hsp hrun
    have hup : pyUpper s' ∈ RUNNING_STATUSES := pyUpper_mem_running s' hrun
    simp [status_msg, getFromInfo, hkey, hsp, hup, updateInfo, validSection,
          INFO_SECTIONS]
  · intro S hS hterm hne hupper
    have hsp : statusProp a rj = (some S, rj) :=
      statusProp_no_fetch a rj S hS hterm hne hupper
    have hnm : pyUpper S ∉ RUNNING_STATUSES := by rw [hupper]; exact hterm
    simp [status_msg, getFromInfo, hkey, hsp, hnm]

/-- Closed instance of C5: with `status_msg` cached and the job running,
an access re-fetches the `job` section and returns the refreshed message;
with the job `SUCCEEDED`, an access returns the cached message and changes
nothing. -/
theorem C5_witness :
    status_msg (constAdapter "RUNNING" [("status_msg", PyVal.str "newer")])
        (mkRunningJob [("status_msg", PyVal.str "msg"), ("status", PyVal.str "RUNNING")])
      = some (PyVal.str "newer",
              { mkRunningJob [("status_msg", PyVal.str "msg"),
                              ("status", PyVal.str "RUNNING")] with
                  _status := some "RUNNING"
                  _info := [("status_msg", PyVal.str "newer"),
                            ("status", PyVal.str "RUNNING"),
                            ("status_msg", PyVal.str "msg"),
                            ("status", PyVal.str "RUNNING")]
                  statusCalls := 1
                  infoCalls := [some "job"] })
    ∧ status_msg (constAdapter "RUNNING" [("status_msg", PyVal.str "newer")])
        (mkRunningJob [("status_msg", PyVal.str "msg"), ("status", PyVal.str "SUCCEEDED")])
      = some (PyVal.str "msg",
              mkRunningJob [("status_msg", PyVal.str "msg"),
                            ("status", PyVal.str "SUCCEEDED")]) := by
  constructor
  · have h := C5_status_msg_volatile
      (constAdapter "RUNNING" [("status_msg", PyVal.str "newer")])
      (mkRunningJob [("status_msg", PyVal.str "msg"), ("status", PyVal.str "RUNNING")])
      (by decide)
    exact h.1 "RUNNING"
      { mkRunningJob [("status_msg", PyVal.str "msg"),
                      ("status", PyVal.str "RUNNING")] with
          _status := some "RUNNING"
          _info := [("status", PyVal.str "RUNNING"),
                    ("status_msg", PyVal.str "msg"),
                    ("status", PyVal.str "RUNNING")]
          statusCalls := 1 }
      (by decide) (by decide)
  · have h := C5_status_msg_volatile
      (constAdapter "RUNNING" [("status_msg", PyVal.str "newer")])
      (mkRunningJob [("status_msg", PyVal.str "msg"), ("status", PyVal.str "SUCCEEDED")])
      (by decide)
    exact h.2 "SUCCEEDED" (by decide) (by decide) (by decide) (by decide)

/-! ## Claim C2 -/

/-- When the stored status is a nonempty uppercase-fixed non-running
string, `is_done` is a pure `true` read. -/
theorem isDone_terminal (a : Adapter) (rj : RJ) (S : String)
    (hS : rj._status = some S) (hterm : S ∉ RUNNING_STATUSES)
    (hne : S ≠ "") (hupper : pyUpper S = S) :
    isDone a rj = (true, rj) := by
  have hsp := statusProp_no_fetch a rj S hS hterm hne hupper
  simp [isDone, hsp, hterm]

/-- When the status must be fetched and the fresh uppercased answer is
running-class, `is_done` is `false` and the state is the status-fetched
one. -/
theorem isDone_running_fetch (a : Adapter) (rj : RJ)
    (hfetch : statusNeedsFetch rj._status = true)
    (hrun : pyUpper (a.get_status rj.statusCalls) ∈ RUNNING_STATUSES) :
    isDone a rj = (false, fetchStatus a rj) := by
  have hne : pyUpper (a.get_status rj.statusCalls) ≠ "" := by
    intro h
    rw [h] at hrun
    exact absurd hrun (by decide)
  have hst : (fetchStatus a rj)._status
      = some (pyUpper (a.get_status rj.statusCalls)) := by
    simp [fetchStatus, getStatusCall]
  have hidem := pyUpper_idem (a.get_status rj.statusCalls)
  simp [isDone, statusProp, hfetch, hst, statusReturn, hne, hidem, hrun]

/-- Adapter for the C2 counterexample: the system log comes back empty on
the first fetch and as `"x"` afterwards. -/
def c2Adapter : Adapter :=
  { get_status := fun _ => "SUCCEEDED"
    get_info_for_rj := fun _ _ => []
    get_genie_log := fun n => if n = 0 then "" else "x"
    get_stderr := fun _ => "" }

/-- C2 counterexample: the claim says the cached blob is populated at most
once and a terminal job's two sequential full-text fetches return
identical content with exactly one adapter log call.  On the code, the
memoization test is Python truthiness (`if not self._cached_genie_log`),
so an empty-string log is re-fetched: for a terminal job whose log is
first `""` and then `"x"`, the two fetches return different content and
make two adapter log calls. -/
theorem C2_counterexample :
    (genie_log c2Adapter false (mkRunningJob [("status", PyVal.str "SUCCEEDED")])).1
      = LogResult.text ""
    ∧ (genie_log c2Adapter false
        (genie_log c2Adapter false
          (mkRunningJob [("status", PyVal.str "SUCCEEDED")])).2).1
      = LogResult.text "x"
    ∧ (genie_log c2Adapter false
        (genie_log c2Adapter false
          (mkRunningJob [("status", PyVal.str "SUCCEEDED")])).2).2.genieLogCalls
      = 2 := by
  decide

/-- C2 (amended): the cached system-log and stderr blobs are populated
only after the job is observed terminal, and — provided the fetched
content is nonempty (truthy) — at most once: for a terminal job, two
sequential full-text fetches return identical content with exactly one
adapter log call total, the second call changing nothing.  (An
empty-string blob fails Python truthiness and is re-fetched, as the
counterexample shows.)  For a non-terminal job every fetch delegates to
the adapter — one fresh log call per access, any iterator flag — and the
cached blob is left untouched. -/
theorem C2_log_memoization_amended :
    (∀ (a : Adapter) (rj : RJ) (S : String),
        rj._status = some S → S ∉ RUNNING_STATUSES → S ≠ "" → pyUpper S = S →
        rj._cached_genie_log = Option.none →
        a.get_genie_log rj.genieLogCalls ≠ "" →
        genie_log a false rj
          = (LogResult.text (a.get_genie_log rj.genieLogCalls),
             { rj with
                 _cached_genie_log := some (a.get_genie_log rj.genieLogCalls)
                 genieLogCalls := rj.genieLogCalls + 1 })
        ∧ genie_log a false
            { rj with
                _cached_genie_log := some (a.get_genie_log rj.genieLogCalls)
                genieLogCalls := rj.genieLogCalls + 1 }
          = (LogResult.text (a.get_genie_log rj.genieLogCalls),
             { rj with
                 _cached_genie_log := some (a.get_genie_log rj.genieLogCalls)
                 genieLogCalls := rj.genieLogCalls + 1 }))
    ∧ (∀ (a : Adapter) (rj : RJ) (iterator : Bool),
        statusNeedsFetch rj._status = true →
        pyUpper (a.get_status rj.statusCalls) ∈ RUNNING_STATUSES →
        genie_log a iterator rj
          = ((if iterator then
                LogResult.lines ((a.get_genie_log rj.genieLogCalls).splitOn "\n")
              else LogResult.text (a.get_genie_log rj.genieLogCalls)),
             { fetchStatus a rj with genieLogCalls := rj.genieLogCalls + 1 })
        ∧ ({ fetchStatus a rj with
               genieLogCalls := rj.genieLogCalls + 1 } : RJ)._cached_genie_log
            = rj._cached_genie_log)
    ∧ (∀ (a : Adapter) (rj : RJ) (S : String),
        rj._status = some S → S ∉ RUNNING_STATUSES → S ≠ "" → pyUpper S = S →
        rj._cached_stderr = Option.none →
        a.get_stderr rj.stderrCalls ≠ "" →
        stderr a false rj
          = (LogResult.text (a.get_stderr rj.stderrCalls),
             { rj with
                 _cached_stderr := some (a.get_stderr rj.stderrCalls)
                 stderrCalls := rj.stderrCalls + 1 })
        ∧ stderr a false
            { rj with
                _cached_stderr := some (a.get_stderr rj.stderrCalls)
                stderrCalls := rj.stderrCalls + 1 }
          = (LogResult.text (a.get_stderr rj.stderrCalls),
             { rj with
                 _cached_stderr := some (a.get_stderr rj.stderrCalls)
                 stderrCalls := rj.stderrCalls + 1 }))
    ∧ (∀ (a : Adapter) (rj : RJ) (iterator : Bool),
        statusNeedsFetch rj._status = true →
        pyUpper (a.get_status rj.statusCalls) ∈ RUNNING_STATUSES →
        stderr a iterator rj
          = ((if iterator then
                LogResult.lines ((a.get_stderr rj.stderrCalls).splitOn "\n")
              else LogResult.text (a.get_stderr rj.stderrCalls)),
             { fetchStatus a rj with stderrCalls := rj.stderrCalls + 1 })
        ∧ ({ fetchStatus a rj with
               stderrCalls := rj.stderrCalls + 1 } : RJ)._cached_stderr
            = rj._cached_stderr) := by
  refine ⟨?_, ?_, ?_, ?_⟩
  · intro a rj S hS hterm hne hupper hcache hcontent
    have hdone := isDone_terminal a rj S hS hterm hne hupper
    constructor
    · simp [genie_log, hdone, hcache, optFalsy, getGenieLogCall]
    · have hdone1 := isDone_terminal a
        { rj with
            _cached_genie_log := some (a.get_genie_log rj.genieLogCalls)
            genieLogCalls := rj.genieLogCalls + 1 } S hS hterm hne hupper
      simp [genie_log, hdone1, optFalsy, hcontent]
  · intro a rj iterator hfetch hrun
    have hdone := isDone_running_fetch a rj hfetch hrun
    refine ⟨?_, rfl⟩
    simp only [genie_log, hdone, getGenieLogCall]
    rfl
  · intro a rj S hS hterm hne hupper hcache hcontent
    have hdone := isDone_terminal a rj S hS hterm hne hupper
    constructor
    · simp [stderr, hdone, hcache, optFalsy, getStderrCall]
    · have hdone1 := isDone_terminal a
        { rj with
            _cached_stderr := some (a.get_stderr rj.stderrCalls)
            stderrCalls := rj.stderrCalls + 1 } S hS hterm hne hupper
      simp [stderr, hdone1, optFalsy, hcontent]
  · intro a rj iterator hfetch hrun
    have hdone := isDone_running_fetch a rj hfetch hrun
    refine ⟨?_, rfl⟩
    simp only [stderr, hdone, getStderrCall]
    rfl

/-- Closed instance of the amended C2: a `SUCCEEDED` handle memoizes the
log `"LOG"` (and stderr `"ERR"`) with exactly one adapter log call and
serves the second fetch unchanged from the cache; a fresh handle whose
status comes back `RUNNING` delegates the full-text fetch to the adapter
and leaves the cache slot empty. -/
theorem C2_witness :
    (genie_log (constAdapter "x" []) false
        (mkRunningJob [("status", PyVal.str "SUCCEEDED")])
      = (LogResult.text "LOG",
         { mkRunningJob [("status", PyVal.str "SUCCEEDED")] with
             _cached_genie_log := some "LOG"
             genieLogCalls := 1 })
      ∧ genie_log (constAdapter "x" []) false
          { mkRunningJob [("status", PyVal.str "SUCCEEDED")] with
              _cached_genie_log := some "LOG"
              genieLogCalls := 1 }
        = (LogResult.text "LOG",
           { mkRunningJob [("status", PyVal.str "SUCCEEDED")] with
               _cached_genie_log := some "LOG"
               genieLogCalls := 1 }))
    ∧ (genie_log (constAdapter "RUNNING" []) false (mkRunningJob [])
        = (LogResult.text "LOG",
           { fetchStatus (constAdapter "RUNNING" []) (mkRunningJob []) with
               genieLogCalls := 1 })
      ∧ ({ fetchStatus (constAdapter "RUNNING" []) (mkRunningJob []) with
             genieLogCalls := 1 } : RJ)._cached_genie_log
          = (mkRunningJob [])._cached_genie_log)
    ∧ (stderr (constAdapter "x" []) false
        (mkRunningJob [("status", PyVal.str "SUCCEEDED")])
      = (LogResult.text "ERR",
         { mkRunningJob [("status", PyVal.str "SUCCEEDED")] with
             _cached_stderr := some "ERR"
             stderrCalls := 1 })
      ∧ stderr (constAdapter "x" []) false
          { mkRunningJob [("status", PyVal.str "SUCCEEDED")] with
              _cached_stderr := some "ERR"
              stderrCalls := 1 }
        = (LogResult.text "ERR",
           { mkRunningJob [("status", PyVal.str "SUCCEEDED")] with
               _cached_stderr := some "ERR"
               stderrCalls := 1 }))
    ∧ (stderr (constAdapter "RUNNING" []) false (mkRunningJob [])
        = (LogResult.text "ERR",
           { fetchStatus (constAdapter "RUNNING" []) (mkRunningJob []) with
               stderrCalls := 1 })
      ∧ ({ fetchStatus (constAdapter "RUNNING" []) (mkRunningJob []) with
             stderrCalls := 1 } : RJ)._cached_stderr
          = (mkRunningJob [])._cached_stderr) := by
  refine ⟨?_, ?_, ?_, ?_⟩
  · exact C2_log_memoization_amended.1 (constAdapter "x" [])
      (mkRunningJob [("status", PyVal.str "SUCCEEDED")]) "SUCCEEDED"
      (by decide) (by decide) (by decide) (by decide) (by decide) (by decide)
  · exact C2_log_memoization_amended.2.1 (constAdapter "RUNNING" [])
      (mkRunningJob []) false (by decide) (by decide)
  · exact C2_log_memoization_amended.2.2.1 (constAdapter "x" [])
      (mkRunningJob [("status", PyVal.str "SUCCEEDED")]) "SUCCEEDED"
      (by decide) (by decide) (by decide) (by decide) (by decide) (by decide)
  · exact C2_log_memoization_amended.2.2.2 (constAdapter "RUNNING" [])
      (mkRunningJob []) false (by decide) (by decide)

/-! ## Claim C6 -/

/-- C6: `wait` with `until_running = true`.  The stop-condition set built
by the comprehension is the running set minus both casings of RUNNING,
i.e. `["INIT", "init"]`, and since the loop tests the *uppercased* fresh
adapter result, membership in that set is equivalent to the result being
exactly `"INIT"` (the claim's "stop set = {INIT}").  The loop's unfolding
equation shows each iteration `i` issues the fresh status call `g i`
directly against the adapter — the handle's cache is not even an input of
the loop.  The loop exits at the very poll whose uppercased result is
`"RUNNING"`, and `wait` returns the handle itself, unchanged. -/
theorem C6_wait_until_running :
    waitStatuses true = ["INIT", "init"]
    ∧ (∀ r : String, pyUpper r ∈ waitStatuses true ↔ pyUpper r = "INIT")
    ∧ (∀ (g : Nat → String) (ss : List String) (fuel i : Nat),
        waitLoop g ss (fuel + 1) i
          = if decide (pyUpper (g i) ∈ ss) = true then waitLoop g ss fuel (i + 1)
            else some i)
    ∧ (∀ (g : Nat → String) (fuel i : Nat), pyUpper (g i) = "RUNNING" →
        waitLoop g (waitStatuses true) (fuel + 1) i = some i)
    ∧ (∀ (a : Adapter) (rj : RJ) (fuel : Nat) (x : RJ × Nat),
        wait a rj true fuel = some x → x.1 = rj) := by
  have hset : waitStatuses true = ["INIT", "init"] := by decide
  refine ⟨hset, ?_, ?_, ?_, ?_⟩
  · intro r
    rw [hset]
    constructor
    · intro hmem
      simp only [List.mem_cons, List.not_mem_nil, or_false] at hmem
      rcases hmem with h | h
      · exact h
      · exact absurd h (pyUpper_ne_init r)
    · intro h
      rw [h]
      exact List.mem_cons_self _ _
  · intro g ss fuel i
    rfl
  · intro g fuel i h
    have : decide (pyUpper (g i) ∈ waitStatuses true) = false := by
      rw [h, hset]
      decide
    simp [waitLoop, this]
  · intro a rj fuel x h
    cases hw : waitLoop a.get_status (waitStatuses true) fuel 0 with
    | none => rw [wait, hw] at h; cases h
    | some i =>
      rw [wait, hw] at h
      cases h
      rfl

/-- Closed instance of C6: `"Running"` uppercases out of the stop set
(the equivalence holds and both sides are false for membership / true for
`"RUNNING"` ≠ `"INIT"` only when equal), the loop against an adapter
reporting `RUNNING` exits at poll 0, and `wait` returns the very handle it
was called on. -/
theorem C6_witness :
    (pyUpper "Running" ∈ waitStatuses true ↔ pyUpper "Running" = "INIT")
    ∧ waitLoop (fun _ => "RUNNING") (waitStatuses true) 1 0 = some 0
    ∧ (mkRunningJob [], 0).1 = mkRunningJob [] := by
  refine ⟨C6_wait_until_running.2.1 "Running", ?_, ?_⟩
  · exact C6_wait_until_running.2.2.2.1 (fun _ => "RUNNING") 0 0 (by decide)
  · exact C6_wait_until_running.2.2.2.2 (constAdapter "RUNNING" []) (mkRunningJob [])
      1 (mkRunningJob [], 0) (by decide)

/-! ## Claim C7 -/

/-- C7: the duration accessor is exactly `finish_time - start_time` — no
clamping anywhere — so for a state whose finish timestamp is absent
(defaulting to the epoch, i.e. finish epoch 0) and whose start time is
positive, the result is negative: the concrete run below yields `-1000`
milliseconds.  (Both converted times are whole multiples of 1000 ms, the
conversion being seconds times 1000, so the spec's illustrative
`finishTime = 500` is an abstract instance of the same subtraction.) -/
theorem C7_duration_no_clamp :
    (∀ (a : Adapter) (rj : RJ) (f : Int) (rj₁ : RJ) (s : Int) (rj₂ : RJ),
        finish_time a rj = some (f, rj₁) → start_time a rj₁ = some (s, rj₂) →
        duration a rj = some (f - s, rj₂))
    ∧ duration (constAdapter "" [])
        (mkRunningJob [("status", PyVal.str "SUCCEEDED"),
                       ("started", PyVal.str "1970-01-01T00:00:01Z")])
      = some (-1000,
          { mkRunningJob [("status", PyVal.str "SUCCEEDED"),
                          ("started", PyVal.str "1970-01-01T00:00:01Z")] with
              infoCalls := [some "job"] })
    ∧ (-1000 : Int) < 0 := by
  refine ⟨?_, by decide, by decide⟩
  intro a rj f rj₁ s rj₂ hf hs
  simp [duration, hf, hs]

/-- Closed instance of C7: on the concrete terminal-but-unfinished state,
`finish_time` is 0 (absent `finished` defaults to the epoch), `start_time`
is 1000 ms, and `duration` returns their exact difference `0 - 1000`. -/
theorem C7_witness :
    duration (constAdapter "" [])
        (mkRunningJob [("status", PyVal.str "SUCCEEDED"),
                       ("started", PyVal.str "1970-01-01T00:00:01Z")])
      = some (0 - 1000,
          { mkRunningJob [("status", PyVal.str "SUCCEEDED"),
                          ("started", PyVal.str "1970-01-01T00:00:01Z")] with
              infoCalls := [some "job"] }) := by
  exact C7_duration_no_clamp.1 (constAdapter "" [])
    (mkRunningJob [("status", PyVal.str "SUCCEEDED"),
                   ("started", PyVal.str "1970-01-01T00:00:01Z")])
    0
    { mkRunningJob [("status", PyVal.str "SUCCEEDED"),
                    ("started", PyVal.str "1970-01-01T00:00:01Z")] with
        infoCalls := [some "job"] }
    1000
    { mkRunningJob [("status", PyVal.str "SUCCEEDED"),
                    ("started", PyVal.str "1970-01-01T00:00:01Z")] with
        infoCalls := [some "job"] }
    (by decide) (by decide)

/-! ## Claim C8 -/

/-- C8: timestamp conversion.  A present string containing the `.XXXZ`
pattern is parsed with the millisecond-aware format, any other present
string with the seconds-only format, a missing field defaults to the UTC
epoch start (converting to 0), the parsed seconds are multiplied by 1000,
and `"1970-01-01T00:00:00Z"` converts to 0 milliseconds; the sample
fraction timestamp takes the millisecond-aware path and parses. -/
theorem C8_timestamp_conversion :
    (∀ (info : Info) (key s : String),
        pyGet info key = some (PyVal.str s) → hasMsPattern s = true →
        convertDttmToEpoch info key = (dttm_to_epoch s true).map (· * 1000))
    ∧ (∀ (info : Info) (key s : String),
        pyGet info key = some (PyVal.str s) → hasMsPattern s = false →
        convertDttmToEpoch info key = (dttm_to_epoch s false).map (· * 1000))
    ∧ (∀ (info : Info) (key : String),
        pyGet info key = Option.none → convertDttmToEpoch info key = some 0)
    ∧ (∀ (info : Info) (key : String),
        pyGet info key = some (PyVal.str "1970-01-01T00:00:00Z") →
        convertDttmToEpoch info key = some 0)
    ∧ hasMsPattern "2020-01-01T00:00:00.500Z" = true
    ∧ dttm_to_epoch "2020-01-01T00:00:00.500Z" true = some 1577836800 := by
  refine ⟨?_, ?_, ?_, ?_, by decide, by decide⟩
  · intro info key s h hms
    simp [convertDttmToEpoch, h, hms]
  · intro info key s h hms
    simp [convertDttmToEpoch, h, hms]
  · intro info key h
    simp [convertDttmToEpoch, h]
    decide
  · intro info key h
    simp [convertDttmToEpoch, h]
    decide

/-- Closed instance of C8: a cache holding the fraction timestamp converts
via the millisecond-aware format to 1577836800000 ms; one holding the
epoch string converts to 0; an absent key converts to 0. -/
theorem C8_witness :
    convertDttmToEpoch [("started", PyVal.str "2020-01-01T00:00:00.500Z")] "started"
      = (dttm_to_epoch "2020-01-01T00:00:00.500Z" true).map (· * 1000)
    ∧ convertDttmToEpoch [("started", PyVal.str "1970-01-01T00:00:00Z")] "started"
      = some 0
    ∧ convertDttmToEpoch [] "finished" = some 0 := by
  refine ⟨?_, ?_, ?_⟩
  · exact C8_timestamp_conversion.1 _ "started" _ (by decide) (by decide)
  · exact C8_timestamp_conversion.2.2.2.1 _ "started" (by decide)
  · exact C8_timestamp_conversion.2.2.1 [] "finished" (by decide)

/-! ## Claim C9 -/

/-- C9: the job-type accessor is partial.  If the state after the
command-section refresh still has `command_name` absent or `None` — and
such a value never contains "hive" — the accessor raises (the final
`self.info.get('command_name').upper()` runs `.upper()` on `None`),
modelled as `none`; conversely, whenever the accessor returns normally,
the post-refresh cache holds `command_name` as a non-`None` string. -/
theorem C9_job_type_partial :
    (∀ (a : Adapter) (rj rj₁ : RJ),
        jobTypeStep1 a rj = some rj₁ →
        (pyGet rj₁._info "command_name" = Option.none
          ∨ pyGet rj₁._info "command_name" = some PyVal.none) →
        job_type a rj = Option.none)
    ∧ (∀ (a : Adapter) (rj : RJ) (t : String) (rj' : RJ),
        job_type a rj = some (t, rj') →
        ∃ s : String, pyGet rj'._info "command_name" = some (PyVal.str s)) := by
  constructor
  · intro a rj rj₁ h1 habs
    rcases habs with habs | habs <;>
      simp [job_type, h1, habs, pyTruthy, strContains, containsSub, pyLower]
  · intro a rj t rj' h
    cases h1 : jobTypeStep1 a rj with
    | none => rw [job_type, h1] at h; cases h
    | some rj₁ =>
      rw [job_type, h1] at h
      cases hv : pyGet rj₁._info "command_name" with
      | none =>
        simp [hv, pyTruthy, strContains, containsSub, pyLower] at h
      | some v =>
        cases v with
        | none =>
          simp [hv, pyTruthy, strContains, containsSub, pyLower] at h
        | str s =>
          have hrj : rj' = rj₁ := by
            by_cases hs0 : s = ""
            · simp [hv, hs0, pyTruthy, strContains, containsSub, pyLower] at h
              exact h.2.symm
            · simp [hv, hs0, pyTruthy] at h
              by_cases hh : strContains (pyLower s) "hive" = true
              · simp [hh] at h
                exact h.2.symm
              · simp [hh, hv] at h
                exact h.2.symm
          exact ⟨s, hrj ▸ hv⟩
        | int n =>
          by_cases hn : n = 0
          · simp [hv, hn, pyTruthy, strContains, containsSub, pyLower] at h
          · simp [hv, hn, pyTruthy] at h

/-- Closed instance of C9: when the command refresh brings nothing (the
adapter's command section is empty), `job_type` on a fresh handle raises;
when `command_name` is the string `"pig"`, it returns normally and the
cache indeed holds a string. -/
theorem C9_witness :
    job_type (constAdapter "" []) (mkRunningJob []) = Option.none
    ∧ ∃ s : String,
        pyGet (mkRunningJob [("command_name", PyVal.str "pig")])._info "command_name"
          = some (PyVal.str s) := by
  constructor
  · exact C9_job_type_partial.1 (constAdapter "" []) (mkRunningJob [])
      { mkRunningJob [] with infoCalls := [some "command"] }
      (by decide) (Or.inl (by decide))
  · exact C9_job_type_partial.2 (constAdapter "" [])
      (mkRunningJob [("command_name", PyVal.str "pig")]) "PIG"
      (mkRunningJob [("command_name", PyVal.str "pig")]) (by decide)

end Genie
